import Mathlib

/-!
Shallow embedding of the adaptive bitrate streaming engine
(`src/main/src/main.rs`) and proofs about it.

Modelling conventions:
* Rust `Duration` values are natural numbers of nanoseconds;
  `as_secs_f64` becomes the exact rational `n / 10^9` and `as_millis`
  the natural division `n / 10^6`.
* Rust `Instant` timestamps are rationals measured in seconds; every
  function that reads `Instant::now()` takes `now : ℚ` as an argument.
  `Instant::duration_since` saturates at zero, hence `max 0 (now - t)`.
* `u32` quantities are naturals; a float-to-`u32` `as` cast in Rust
  truncates toward zero and saturates into `[0, 2^32 - 1]`, which is
  `toU32` below (and `toU32R` for `f64` expressions modelled over ℝ).
* `f64`/`f32` arithmetic is modelled exactly over ℚ (or ℝ where the
  exponential weight function appears); the literals 0.8, 0.3, 0.2 …
  are the corresponding rationals.
-/

namespace ABR

structure QualityLevel where
  bitrate : ℕ
  width : ℕ
  height : ℕ
  codec : String
deriving Repr, DecidableEq, Inhabited

structure SegmentInfo where
  quality_level : ℕ
  size_bytes : ℕ
  duration : ℕ
  download_time : ℕ
deriving Repr, DecidableEq

structure BufferState where
  current_level : ℕ
  target_level : ℕ
  max_level : ℕ
  min_level : ℕ
deriving Repr, DecidableEq

structure AdaptiveBitrateStreamer where
  quality_levels : List QualityLevel
  current_quality : ℕ
  bandwidth_history : List (ℚ × ℕ)
  buffer_state : BufferState
  segment_history : List SegmentInfo
  bandwidth_window : ℕ
  safety_factor : ℚ
  buffer_panic_threshold : ℕ
  buffer_seek_threshold : ℕ
  min_bandwidth_samples : ℕ

/-- Saturating truncation of a rational to the `u32` range, the model of a
Rust `as u32` cast applied to a non-`NaN` `f64` value. -/
def toU32 (q : ℚ) : ℕ :=
  min (Int.toNat ⌊q⌋) (2 ^ 32 - 1)

/-- `AdaptiveBitrateStreamer::new`. -/
def new (quality_levels : List QualityLevel) : AdaptiveBitrateStreamer :=
  { quality_levels := quality_levels
    current_quality := quality_levels.length / 2
    bandwidth_history := []
    buffer_state :=
      { current_level := 0
        target_level := 30 * 10 ^ 9
        max_level := 60 * 10 ^ 9
        min_level := 5 * 10 ^ 9 }
    segment_history := []
    bandwidth_window := 10 * 10 ^ 9
    safety_factor := 4 / 5
    buffer_panic_threshold := 3 * 10 ^ 9
    buffer_seek_threshold := 45 * 10 ^ 9
    min_bandwidth_samples := 3 }

/-- The throughput sample computed at the top of `record_segment_download`:
`segment_size / download_duration` in bytes per second when the duration is
at least one millisecond, and the `u32::MAX` sentinel otherwise. -/
def bandwidth_sample (segment_size download_duration : ℕ) : ℕ :=
  if download_duration / 10 ^ 6 > 0 then
    toU32 ((segment_size : ℚ) / ((download_duration : ℚ) / 10 ^ 9))
  else
    2 ^ 32 - 1

/-- `cleanup_bandwidth_history`: pop stale samples from the front, stopping
at the first sample still inside the window. -/
def cleanup_bandwidth_history (s : AdaptiveBitrateStreamer) (now : ℚ) :
    AdaptiveBitrateStreamer :=
  { s with bandwidth_history :=
      (s.bandwidth_history.dropWhile
        (fun p => max 0 (now - p.1) > (s.bandwidth_window : ℚ) / 10 ^ 9)) }

/-- `record_segment_download`. -/
def record_segment_download (s : AdaptiveBitrateStreamer)
    (segment_size download_duration segment_duration : ℕ) (now : ℚ) :
    AdaptiveBitrateStreamer :=
  let bandwidth := bandwidth_sample segment_size download_duration
  let s1 := { s with bandwidth_history := s.bandwidth_history ++ [(now, bandwidth)] }
  let s2 := cleanup_bandwidth_history s1 now
  let segment_info : SegmentInfo :=
    { quality_level := s.current_quality
      size_bytes := segment_size
      duration := segment_duration
      download_time := download_duration }
  let hist := s2.segment_history ++ [segment_info]
  let s3 := { s2 with segment_history := if hist.length > 50 then hist.tail else hist }
  let lifted := s3.buffer_state.current_level + segment_duration
  { s3 with buffer_state :=
      { s3.buffer_state with current_level :=
          if lifted > s3.buffer_state.max_level then s3.buffer_state.max_level
          else lifted } }

/-- `update_buffer_consumption`. -/
def update_buffer_consumption (s : AdaptiveBitrateStreamer)
    (consumed_duration : ℕ) : AdaptiveBitrateStreamer :=
  { s with buffer_state :=
      { s.buffer_state with current_level :=
          if s.buffer_state.current_level ≥ consumed_duration then
            s.buffer_state.current_level - consumed_duration
          else 0 } }

/-- `calculate_buffer_factor`. -/
def calculate_buffer_factor (s : AdaptiveBitrateStreamer) : ℚ :=
  let current_buffer : ℚ := (s.buffer_state.current_level : ℚ) / 10 ^ 9
  let target_buffer : ℚ := (s.buffer_state.target_level : ℚ) / 10 ^ 9
  let panic_threshold : ℚ := (s.buffer_panic_threshold : ℚ) / 10 ^ 9
  let seek_threshold : ℚ := (s.buffer_seek_threshold : ℚ) / 10 ^ 9
  if current_buffer < panic_threshold then 3 / 10
  else if current_buffer < target_buffer then
    3 / 5 + 3 / 10 * (current_buffer / target_buffer)
  else if current_buffer > seek_threshold then 3 / 2
  else 1

/-- `find_suitable_quality`: scan the ladder from the highest index down and
return the first index whose `bitrate / 8` fits inside the safe bandwidth,
falling back to index 0. -/
def find_suitable_quality (s : AdaptiveBitrateStreamer)
    (available_bandwidth : ℕ) : ℕ :=
  let safe_bandwidth := toU32 ((available_bandwidth : ℚ) * s.safety_factor)
  (((List.range s.quality_levels.length).reverse).find?
    (fun i => decide ((s.quality_levels.getD i default).bitrate / 8 ≤ safe_bandwidth))).getD 0

/-- Saturating truncation of a real to the `u32` range, the model of the
`as u32` cast on the (real-valued) exponentially weighted average. -/
noncomputable def toU32R (x : ℝ) : ℕ :=
  min (Int.toNat ⌊x⌋) (2 ^ 32 - 1)

/-- `calculate_harmonic_mean_bandwidth`. -/
def calculate_harmonic_mean_bandwidth (s : AdaptiveBitrateStreamer) : ℕ :=
  let sum_reciprocals : ℚ :=
    (s.bandwidth_history.map (fun p => 1 / max (p.2 : ℚ) 1)).sum
  toU32 ((s.bandwidth_history.length : ℚ) / sum_reciprocals)

/-- `calculate_weighted_average_bandwidth`: a fold accumulating the
exponentially time-weighted sum and the weight sum. -/
noncomputable def calculate_weighted_average_bandwidth
    (s : AdaptiveBitrateStreamer) (now : ℚ) : ℕ :=
  let r := s.bandwidth_history.foldl
    (fun acc p =>
      let age : ℚ := max 0 (now - p.1)
      let weight : ℝ := Real.exp (-(age : ℝ) / ((s.bandwidth_window : ℝ) / 10 ^ 9))
      (acc.1 + (p.2 : ℝ) * weight, acc.2 + weight))
    ((0 : ℝ), (0 : ℝ))
  if r.2 > 0 then toU32R (r.1 / r.2) else 0

/-- `calculate_percentile_bandwidth`. -/
def calculate_percentile_bandwidth (s : AdaptiveBitrateStreamer)
    (percentile : ℚ) : ℕ :=
  let bandwidths := s.bandwidth_history.map Prod.snd
  if bandwidths.isEmpty then 0
  else
    let sorted := bandwidths.insertionSort (· ≤ ·)
    let index := Int.toNat ⌊(bandwidths.length : ℚ) * percentile⌋
    sorted.getD (min index (bandwidths.length - 1)) 0

/-- `estimate_bandwidth`. -/
noncomputable def estimate_bandwidth (s : AdaptiveBitrateStreamer)
    (now : ℚ) : ℕ :=
  if s.bandwidth_history.length < s.min_bandwidth_samples then
    (s.quality_levels.getD s.current_quality default).bitrate / 8
  else
    min (min (calculate_harmonic_mean_bandwidth s)
             (calculate_weighted_average_bandwidth s now))
        (calculate_percentile_bandwidth s (2 / 10))

/-- The `effective_bandwidth` intermediate of `get_next_quality`:
the bandwidth estimate scaled by the buffer factor and cast back to `u32`. -/
noncomputable def effective_bandwidth (s : AdaptiveBitrateStreamer)
    (now : ℚ) : ℕ :=
  toU32 ((estimate_bandwidth s now : ℚ) * calculate_buffer_factor s)

/-- `apply_quality_smoothing`. -/
def apply_quality_smoothing (s : AdaptiveBitrateStreamer)
    (target_quality : ℕ) : ℕ :=
  let current : ℤ := s.current_quality
  let target : ℤ := target_quality
  let diff : ℤ := target - current
  let max_change : ℤ :=
    if s.buffer_state.current_level < s.buffer_panic_threshold then
      if diff < 0 then diff else 1
    else
      diff.sign * min 1 |diff|
  min (Int.toNat (max (current + max_change) 0)) (s.quality_levels.length - 1)

/-- `get_next_quality`: returns the updated streamer together with the
chosen quality index. -/
noncomputable def get_next_quality (s : AdaptiveBitrateStreamer) (now : ℚ) :
    AdaptiveBitrateStreamer × ℕ :=
  let next_quality :=
    apply_quality_smoothing s (find_suitable_quality s (effective_bandwidth s now))
  ({ s with current_quality := next_quality }, next_quality)

/-- The four-level demo ladder `create_test_quality_levels`. -/
def create_test_quality_levels : List QualityLevel :=
  [ { bitrate := 500000, width := 640, height := 360, codec := "h264" }
  , { bitrate := 1000000, width := 1280, height := 720, codec := "h264" }
  , { bitrate := 2500000, width := 1920, height := 1080, codec := "h264" }
  , { bitrate := 5000000, width := 3840, height := 2160, codec := "h264" } ]

/-! ### Operation sequences touching the buffer -/

/-- The two external operations that mutate the buffer level. -/
inductive BufOp where
  | record (segment_size download_duration segment_duration : ℕ) (now : ℚ)
  | consume (consumed_duration : ℕ)

/-- Interpret one buffer-touching operation on the streamer state. -/
def applyBufOp (s : AdaptiveBitrateStreamer) : BufOp → AdaptiveBitrateStreamer
  | .record sz dl seg now => record_segment_download s sz dl seg now
  | .consume c => update_buffer_consumption s c

lemma applyBufOp_buffer_le (s : AdaptiveBitrateStreamer) (op : BufOp)
    (h : s.buffer_state.current_level ≤ s.buffer_state.max_level) :
    (applyBufOp s op).buffer_state.current_level ≤
      (applyBufOp s op).buffer_state.max_level := by
  cases op with
  | record sz dl seg now =>
      simp only [applyBufOp, record_segment_download, cleanup_bandwidth_history]
      split <;> omega
  | consume c =>
      simp only [applyBufOp, update_buffer_consumption]
      split <;> omega

lemma foldl_applyBufOp_buffer_le (ops : List BufOp) (s : AdaptiveBitrateStreamer)
    (h : s.buffer_state.current_level ≤ s.buffer_state.max_level) :
    (ops.foldl applyBufOp s).buffer_state.current_level ≤
      (ops.foldl applyBufOp s).buffer_state.max_level := by
  induction ops generalizing s with
  | nil => exact h
  | cons op rest ih =>
      exact ih (applyBufOp s op) (applyBufOp_buffer_le s op h)

/-- C2: starting from the initial state, any sequence of
`record_segment_download` and `update_buffer_consumption` calls keeps the
buffer level inside `[0, max_level]`: arrival clamps to `max_level` and
consumption clamps to zero. -/
theorem buffer_level_bounds (ls : List QualityLevel) (ops : List BufOp) :
    0 ≤ (ops.foldl applyBufOp (new ls)).buffer_state.current_level ∧
    (ops.foldl applyBufOp (new ls)).buffer_state.current_level ≤
      (ops.foldl applyBufOp (new ls)).buffer_state.max_level :=
  ⟨Nat.zero_le _, foldl_applyBufOp_buffer_le ops (new ls) (by simp [new])⟩

/-- C10: `update_buffer_consumption` modifies only the buffer's
`current_level`; the ladder, the quality index, both histories, the other
three buffer fields and all tunable parameters are untouched. -/
theorem update_buffer_consumption_frame (s : AdaptiveBitrateStreamer) (c : ℕ) :
    (update_buffer_consumption s c).quality_levels = s.quality_levels ∧
    (update_buffer_consumption s c).current_quality = s.current_quality ∧
    (update_buffer_consumption s c).bandwidth_history = s.bandwidth_history ∧
    (update_buffer_consumption s c).segment_history = s.segment_history ∧
    (update_buffer_consumption s c).buffer_state.target_level =
      s.buffer_state.target_level ∧
    (update_buffer_consumption s c).buffer_state.max_level =
      s.buffer_state.max_level ∧
    (update_buffer_consumption s c).buffer_state.min_level =
      s.buffer_state.min_level ∧
    (update_buffer_consumption s c).bandwidth_window = s.bandwidth_window ∧
    (update_buffer_consumption s c).safety_factor = s.safety_factor ∧
    (update_buffer_consumption s c).buffer_panic_threshold =
      s.buffer_panic_threshold ∧
    (update_buffer_consumption s c).buffer_seek_threshold =
      s.buffer_seek_threshold ∧
    (update_buffer_consumption s c).min_bandwidth_samples =
      s.min_bandwidth_samples :=
  ⟨rfl, rfl, rfl, rfl, rfl, rfl, rfl, rfl, rfl, rfl, rfl, rfl⟩

/-! ### The throughput sample -/

/-- C9 (amended): `record_segment_download` never divides by zero; for a
download duration under one millisecond the sample is the `u32::MAX`
sentinel, and otherwise it is `segment_size / download_duration` in bytes
per second, truncated and saturated into the `u32` range. -/
theorem bandwidth_sample_characterization (size dl : ℕ) :
    bandwidth_sample size dl =
      if dl < 10 ^ 6 then 2 ^ 32 - 1
      else min (size * 10 ^ 9 / dl) (2 ^ 32 - 1) := by
  unfold bandwidth_sample
  rcases lt_or_ge dl (10 ^ 6) with h | h
  · rw [if_neg (by omega), if_pos h]
  · have hpos : 0 < dl := lt_of_lt_of_le (by norm_num) h
    rw [if_pos (Nat.div_pos h (by norm_num)), if_neg (not_lt.2 h)]
    unfold toU32
    congr 1
    have hq : (size : ℚ) / ((dl : ℚ) / 10 ^ 9) = ((size * 10 ^ 9 : ℕ) : ℚ) / (dl : ℚ) := by
      have hd : (dl : ℚ) ≠ 0 := Nat.cast_ne_zero.mpr hpos.ne'
      push_cast
      field_simp
      norm_num
    rw [hq, Int.floor_toNat, Nat.floor_div_nat, Nat.floor_natCast]

lemma bandwidth_sample_4g_1ms :
    bandwidth_sample 4000000000 1000000 = 4294967295 := by
  unfold bandwidth_sample toU32
  norm_num

/-- C9 (counterexample to the claim as stated): a 4 GB segment reported as
downloaded in exactly one millisecond yields the saturated sample
`u32::MAX = 4294967295`, not the claimed quotient `4·10^12` bytes/sec. -/
theorem record_sample_saturates :
    ((record_segment_download (new create_test_quality_levels)
        4000000000 1000000 4000000000 0).bandwidth_history.map Prod.snd) =
      [4294967295] ∧ (4294967295 : ℕ) ≠ 4000000000000 := by
  refine ⟨?_, by decide⟩
  simp only [record_segment_download, cleanup_bandwidth_history, new,
    bandwidth_sample_4g_1ms, List.nil_append, List.dropWhile]
  norm_num

/-! ### Buffer factor -/

lemma nanos_div_lt (a b : ℕ) :
    ((a : ℚ) / 10 ^ 9 < (b : ℚ) / 10 ^ 9) ↔ a < b := by
  rw [div_lt_div_iff_of_pos_right (by norm_num : (0 : ℚ) < 10 ^ 9)]
  exact Nat.cast_lt

/-- C6: the buffer factor is the claimed piecewise function of the current
level, provided the configured thresholds are ordered
`panic ≤ target ≤ seek` (which holds for every constructed streamer). -/
theorem buffer_factor_piecewise (s : AdaptiveBitrateStreamer)
    (hpt : s.buffer_panic_threshold ≤ s.buffer_state.target_level)
    (hts : s.buffer_state.target_level ≤ s.buffer_seek_threshold) :
    (s.buffer_state.current_level < s.buffer_panic_threshold →
      calculate_buffer_factor s = 3 / 10) ∧
    (s.buffer_panic_threshold ≤ s.buffer_state.current_level ∧
        s.buffer_state.current_level < s.buffer_state.target_level →
      calculate_buffer_factor s = 3 / 5 + 3 / 10 *
        ((s.buffer_state.current_level : ℚ) / (s.buffer_state.target_level : ℚ))) ∧
    (s.buffer_seek_threshold < s.buffer_state.current_level →
      calculate_buffer_factor s = 3 / 2) ∧
    (s.buffer_state.target_level ≤ s.buffer_state.current_level ∧
        s.buffer_state.current_level ≤ s.buffer_seek_threshold →
      calculate_buffer_factor s = 1) := by
  simp only [calculate_buffer_factor]
  refine ⟨?_, ?_, ?_, ?_⟩
  · intro hc
    rw [if_pos ((nanos_div_lt _ _).mpr hc)]
  · rintro ⟨hc1, hc2⟩
    rw [if_neg (by rw [nanos_div_lt]; omega), if_pos ((nanos_div_lt _ _).mpr hc2)]
    have ht : (s.buffer_state.target_level : ℚ) ≠ 0 := by
      have : 0 < s.buffer_state.target_level := by omega
      exact_mod_cast this.ne'
    congr 1
    field_simp
  · intro hc
    rw [if_neg (by rw [nanos_div_lt]; omega), if_neg (by rw [nanos_div_lt]; omega),
      if_pos (by rw [gt_iff_lt, nanos_div_lt]; omega)]
  · rintro ⟨hc1, hc2⟩
    rw [if_neg (by rw [nanos_div_lt]; omega), if_neg (by rw [nanos_div_lt]; omega),
      if_neg (by rw [gt_iff_lt, nanos_div_lt]; omega)]

/-! ### Quality selection scan -/

lemma range_reverse_succ (n : ℕ) :
    (List.range (n + 1)).reverse = n :: (List.range n).reverse := by
  rw [List.range_succ, List.reverse_append, List.reverse_singleton,
    List.singleton_append]

lemma find_rev_range_none (n : ℕ) (p : ℕ → Bool)
    (h : ∀ j < n, p j = false) :
    ((List.range n).reverse.find? p) = none := by
  induction n with
  | zero => rfl
  | succ m ih =>
      rw [range_reverse_succ,
        List.find?_cons_of_neg _ (by simp [h m (Nat.lt_succ_self m)])]
      exact ih fun j hj => h j (hj.trans (Nat.lt_succ_self m))

lemma find_rev_range_spec (n : ℕ) (p : ℕ → Bool) (j : ℕ)
    (hpj : p j = true) :
    j < n →
    ∃ k, (List.range n).reverse.find? p = some k ∧ k < n ∧ p k = true ∧
      ∀ i < n, p i = true → i ≤ k := by
  induction n with
  | zero => omega
  | succ m ih =>
      intro hj
      by_cases hm : p m = true
      · refine ⟨m, ?_, Nat.lt_succ_self m, hm, fun i hi _ => by omega⟩
        rw [range_reverse_succ, List.find?_cons_of_pos _ hm]
      · have hmf : p m = false := by
          cases hpm : p m with
          | true => exact absurd hpm hm
          | false => rfl
        have hjm : j < m := by
          rcases Nat.lt_succ_iff_lt_or_eq.mp hj with h | h
          · exact h
          · subst h; exact absurd hpj hm
        obtain ⟨k, hk1, hk2, hk3, hk4⟩ := ih hjm
        refine ⟨k, ?_, hk2.trans (Nat.lt_succ_self m), hk3, fun i hi hpi => ?_⟩
        · rw [range_reverse_succ, List.find?_cons_of_neg _ (by simp [hmf])]
          exact hk1
        · rcases Nat.lt_succ_iff_lt_or_eq.mp hi with h | h
          · exact hk4 i h hpi
          · subst h; exact absurd hpi hm

/-- C5: `find_suitable_quality` returns the highest ladder index whose
required bandwidth `bitrate / 8` fits inside
`safe_bandwidth = effective_bandwidth × 0.8`, and falls back to index 0
when no index qualifies. -/
theorem find_suitable_quality_highest (s : AdaptiveBitrateStreamer) (bw : ℕ)
    (hsf : s.safety_factor = 4 / 5) :
    ((∃ j, j < s.quality_levels.length ∧
        (s.quality_levels.getD j default).bitrate / 8 ≤
          toU32 ((bw : ℚ) * (4 / 5))) →
      find_suitable_quality s bw < s.quality_levels.length ∧
      (s.quality_levels.getD (find_suitable_quality s bw) default).bitrate / 8 ≤
        toU32 ((bw : ℚ) * (4 / 5)) ∧
      ∀ j, j < s.quality_levels.length →
        (s.quality_levels.getD j default).bitrate / 8 ≤
          toU32 ((bw : ℚ) * (4 / 5)) →
        j ≤ find_suitable_quality s bw) ∧
    ((∀ j, j < s.quality_levels.length →
        ¬ ((s.quality_levels.getD j default).bitrate / 8 ≤
          toU32 ((bw : ℚ) * (4 / 5)))) →
      find_suitable_quality s bw = 0) := by
  simp only [find_suitable_quality]
  rw [hsf]
  constructor
  · rintro ⟨j, hj, hok⟩
    obtain ⟨k, hk1, hk2, hk3, hk4⟩ :=
      find_rev_range_spec s.quality_levels.length
        (fun i => decide ((s.quality_levels.getD i default).bitrate / 8 ≤
          toU32 ((bw : ℚ) * (4 / 5)))) j (decide_eq_true hok) hj
    rw [hk1]
    exact ⟨hk2, of_decide_eq_true hk3,
      fun i hi hoki => hk4 i hi (decide_eq_true hoki)⟩
  · intro hnone
    rw [find_rev_range_none _ _
      (fun i hi => decide_eq_false (hnone i hi))]
    rfl

/-! ### Index validity and smoothing bounds -/

/-- C1: `new` starts at the middle index `⌊len / 2⌋`, which is a valid
index of any non-empty ladder, and every `get_next_quality` call stores and
returns an index in `[0, len - 1]`. -/
theorem current_quality_always_valid (ls : List QualityLevel)
    (s : AdaptiveBitrateStreamer) (now : ℚ)
    (hls : 0 < ls.length) (hs : 0 < s.quality_levels.length) :
    (new ls).current_quality = ls.length / 2 ∧
    (new ls).current_quality < ls.length ∧
    (get_next_quality s now).2 < s.quality_levels.length ∧
    (get_next_quality s now).1.current_quality = (get_next_quality s now).2 := by
  refine ⟨rfl, Nat.div_lt_self hls (by norm_num), ?_, rfl⟩
  have hle : apply_quality_smoothing s
      (find_suitable_quality s (effective_bandwidth s now)) ≤
      s.quality_levels.length - 1 := min_le_right _ _
  have : (get_next_quality s now).2 = apply_quality_smoothing s
      (find_suitable_quality s (effective_bandwidth s now)) := rfl
  omega

lemma apply_quality_smoothing_step (s : AdaptiveBitrateStreamer) (t : ℕ)
    (hq : s.current_quality < s.quality_levels.length)
    (hex : ¬ (s.buffer_state.current_level < s.buffer_panic_threshold ∧
      t < s.current_quality)) :
    apply_quality_smoothing s t ≤ s.current_quality + 1 ∧
    s.current_quality ≤ apply_quality_smoothing s t + 1 := by
  simp only [apply_quality_smoothing]
  by_cases hp : s.buffer_state.current_level < s.buffer_panic_threshold
  · simp only [if_pos hp]
    by_cases hd : (t : ℤ) - s.current_quality < 0
    · exact absurd ⟨hp, by omega⟩ hex
    · simp only [if_neg hd]
      omega
  · simp only [if_neg hp]
    rcases lt_trichotomy ((t : ℤ) - s.current_quality) 0 with hd | hd | hd
    · have h1 : ((t : ℤ) - s.current_quality).sign *
          min 1 |(t : ℤ) - s.current_quality| = -1 := by
        rw [Int.sign_eq_neg_one_iff_neg.mpr hd, abs_of_neg hd,
          min_eq_left (by omega)]
        norm_num
      rw [h1]
      omega
    · have h1 : ((t : ℤ) - s.current_quality).sign *
          min 1 |(t : ℤ) - s.current_quality| = 0 := by
        rw [hd]
        simp
      rw [h1]
      omega
    · have h1 : ((t : ℤ) - s.current_quality).sign *
          min 1 |(t : ℤ) - s.current_quality| = 1 := by
        rw [Int.sign_eq_one_iff_pos.mpr hd, abs_of_pos hd,
          min_eq_left (by omega)]
        norm_num
      rw [h1]
      omega

/-- C7: each `get_next_quality` call changes the stored quality index by at
most one, except when the buffer is below the panic threshold and the
target index is below the current one (the unrestricted-downgrade case). -/
theorem quality_step_bounded (s : AdaptiveBitrateStreamer) (now : ℚ)
    (hq : s.current_quality < s.quality_levels.length)
    (hex : ¬ (s.buffer_state.current_level < s.buffer_panic_threshold ∧
      find_suitable_quality s (effective_bandwidth s now) < s.current_quality)) :
    (get_next_quality s now).2 ≤ s.current_quality + 1 ∧
    s.current_quality ≤ (get_next_quality s now).2 + 1 :=
  apply_quality_smoothing_step s
    (find_suitable_quality s (effective_bandwidth s now)) hq hex

/-! ### Bandwidth estimation -/

/-- C4: with fewer than `min_bandwidth_samples` recorded samples,
`estimate_bandwidth` returns exactly the conservative fallback
`bitrate_of_current_level / 8`, whatever the recorded samples are. -/
theorem estimate_bandwidth_fallback (s : AdaptiveBitrateStreamer) (now : ℚ)
    (h : s.bandwidth_history.length < s.min_bandwidth_samples)
    (hq : s.current_quality < s.quality_levels.length) :
    estimate_bandwidth s now =
      (s.quality_levels.get ⟨s.current_quality, hq⟩).bitrate / 8 := by
  simp only [estimate_bandwidth]
  rw [if_pos h, List.getD_eq_getElem _ _ hq]
  simp

lemma foldl_add_pair {α : Type} (l : List α) (f g : α → ℝ) (a b : ℝ) :
    (l.foldl (fun acc p => (acc.1 + f p, acc.2 + g p)) (a, b)) =
      (a + (l.map f).sum, b + (l.map g).sum) := by
  induction l generalizing a b with
  | nil => simp
  | cons x xs ih =>
      simp only [List.foldl_cons, List.map_cons, List.sum_cons, ih]
      rw [Prod.mk.injEq]
      constructor <;> ring

/-- C3: with enough samples, the bandwidth estimate is the minimum of the
harmonic mean `n / Σ 1/max(sample,1)`, the exponentially time-weighted
average with weight `exp(-age / bandwidth_window)`, and the sample at the
clamped index `⌊n × 0.2⌋` of the ascending-sorted samples — each taken
through the program's `u32` cast. -/
theorem estimate_bandwidth_min_of_three (s : AdaptiveBitrateStreamer)
    (now : ℚ)
    (hmin : s.min_bandwidth_samples ≤ s.bandwidth_history.length)
    (hne : s.bandwidth_history ≠ []) :
    estimate_bandwidth s now =
      min (min
        (toU32 ((s.bandwidth_history.length : ℚ) /
          (s.bandwidth_history.map (fun p => 1 / max (p.2 : ℚ) 1)).sum))
        (toU32R (((s.bandwidth_history.map (fun p =>
            (p.2 : ℝ) * Real.exp (-((max 0 (now - p.1) : ℚ) : ℝ) /
              ((s.bandwidth_window : ℝ) / 10 ^ 9)))).sum) /
          ((s.bandwidth_history.map (fun p =>
            Real.exp (-((max 0 (now - p.1) : ℚ) : ℝ) /
              ((s.bandwidth_window : ℝ) / 10 ^ 9)))).sum))))
        (((s.bandwidth_history.map Prod.snd).insertionSort (· ≤ ·)).getD
          (min (Int.toNat ⌊(s.bandwidth_history.length : ℚ) * (2 / 10)⌋)
            (s.bandwidth_history.length - 1)) 0) := by
  have hwpos : 0 < ((s.bandwidth_history.map (fun p =>
      Real.exp (-((max 0 (now - p.1) : ℚ) : ℝ) /
        ((s.bandwidth_window : ℝ) / 10 ^ 9)))).sum) := by
    apply List.sum_pos
    · intro x hx
      obtain ⟨p, _, rfl⟩ := List.mem_map.mp hx
      exact Real.exp_pos _
    · simpa using hne
  have hweight : calculate_weighted_average_bandwidth s now =
      toU32R (((s.bandwidth_history.map (fun p =>
          (p.2 : ℝ) * Real.exp (-((max 0 (now - p.1) : ℚ) : ℝ) /
            ((s.bandwidth_window : ℝ) / 10 ^ 9)))).sum) /
        ((s.bandwidth_history.map (fun p =>
          Real.exp (-((max 0 (now - p.1) : ℚ) : ℝ) /
            ((s.bandwidth_window : ℝ) / 10 ^ 9)))).sum)) := by
    simp only [calculate_weighted_average_bandwidth]
    rw [foldl_add_pair]
    simp only [zero_add]
    rw [if_pos hwpos]
  have hperc : calculate_percentile_bandwidth s (2 / 10) =
      ((s.bandwidth_history.map Prod.snd).insertionSort (· ≤ ·)).getD
        (min (Int.toNat ⌊(s.bandwidth_history.length : ℚ) * (2 / 10)⌋)
          (s.bandwidth_history.length - 1)) 0 := by
    simp only [calculate_percentile_bandwidth]
    rw [if_neg (by simp [hne])]
    simp [List.length_map]
  simp only [estimate_bandwidth]
  rw [if_neg (not_lt.2 hmin), hweight, hperc]
  rfl

/-! ### Panic-mode behaviour at `diff = 0` -/

/-- A reachable panic-mode state: the demo ladder, current quality index 1,
an empty buffer (below the panic threshold), and three equal bandwidth
samples of 10^6 bytes/sec taken at time 0. -/
def sPanic : AdaptiveBitrateStreamer :=
  { new create_test_quality_levels with
      current_quality := 1
      bandwidth_history := [(0, 1000000), (0, 1000000), (0, 1000000)] }

lemma sPanic_harmonic : calculate_harmonic_mean_bandwidth sPanic = 1000000 := by
  simp only [calculate_harmonic_mean_bandwidth, sPanic, new]
  norm_num [toU32]
  rfl

lemma sPanic_weighted :
    calculate_weighted_average_bandwidth sPanic 0 = 1000000 := by
  simp only [calculate_weighted_average_bandwidth, sPanic, new,
    List.foldl_cons, List.foldl_nil]
  norm_num [Real.exp_zero, toU32R]
  rfl

lemma sPanic_percentile :
    calculate_percentile_bandwidth sPanic (2 / 10) = 1000000 := by
  simp only [calculate_percentile_bandwidth, sPanic, new, List.map_cons,
    List.map_nil]
  norm_num [List.insertionSort, List.orderedInsert]

lemma sPanic_estimate : estimate_bandwidth sPanic 0 = 1000000 := by
  simp only [estimate_bandwidth]
  rw [if_neg (by norm_num [sPanic, new]), sPanic_harmonic, sPanic_weighted,
    sPanic_percentile]
  norm_num

lemma sPanic_factor : calculate_buffer_factor sPanic = 3 / 10 := by
  simp only [calculate_buffer_factor, sPanic, new]
  rw [if_pos (by norm_num)]

lemma sPanic_effective : effective_bandwidth sPanic 0 = 300000 := by
  simp only [effective_bandwidth]
  rw [sPanic_estimate, sPanic_factor]
  norm_num [toU32]
  rfl

lemma sPanic_find : find_suitable_quality sPanic 300000 = 1 := by
  simp only [find_suitable_quality, sPanic, new, create_test_quality_levels]
  norm_num [toU32, Int.toNat_ofNat, List.find?]

lemma sPanic_smoothing : apply_quality_smoothing sPanic 1 = 2 := by
  simp only [apply_quality_smoothing, sPanic, new, create_test_quality_levels]
  norm_num
  rfl

/-- C8 demonstration: in `sPanic` the buffer is below the panic threshold
and the selection step targets exactly the current index 1 (`diff = 0`),
yet `get_next_quality` moves the index up to 2 instead of leaving it
unchanged: the panic branch `if diff < 0 { diff } else { 1 }` forces a +1
step even when no change is warranted. -/
theorem panic_mode_forced_upgrade :
    sPanic.buffer_state.current_level < sPanic.buffer_panic_threshold ∧
    find_suitable_quality sPanic (effective_bandwidth sPanic 0) =
      sPanic.current_quality ∧
    (get_next_quality sPanic 0).2 = sPanic.current_quality + 1 := by
  refine ⟨by norm_num [sPanic, new], ?_, ?_⟩
  · rw [sPanic_effective, sPanic_find]
    rfl
  · show apply_quality_smoothing sPanic
      (find_suitable_quality sPanic (effective_bandwidth sPanic 0)) = _
    rw [sPanic_effective, sPanic_find, sPanic_smoothing]
    rfl

/-! ### Concrete witnesses -/

/-- Witness for C1 on the demo ladder. -/
theorem current_quality_always_valid_witness :
    0 < create_test_quality_levels.length ∧
    0 < (new create_test_quality_levels).quality_levels.length ∧
    ((new create_test_quality_levels).current_quality =
        create_test_quality_levels.length / 2 ∧
      (new create_test_quality_levels).current_quality <
        create_test_quality_levels.length ∧
      (get_next_quality (new create_test_quality_levels) 0).2 <
        (new create_test_quality_levels).quality_levels.length ∧
      (get_next_quality (new create_test_quality_levels) 0).1.current_quality =
        (get_next_quality (new create_test_quality_levels) 0).2) :=
  ⟨by decide, by decide,
    current_quality_always_valid create_test_quality_levels
      (new create_test_quality_levels) 0 (by decide) (by decide)⟩

/-- Witness for C3 on three equal samples taken at time 0. -/
theorem estimate_bandwidth_min_of_three_witness :
    sPanic.min_bandwidth_samples ≤ sPanic.bandwidth_history.length ∧
    sPanic.bandwidth_history ≠ [] ∧
    estimate_bandwidth sPanic 0 =
      min (min
        (toU32 ((sPanic.bandwidth_history.length : ℚ) /
          (sPanic.bandwidth_history.map (fun p => 1 / max (p.2 : ℚ) 1)).sum))
        (toU32R (((sPanic.bandwidth_history.map (fun p =>
            (p.2 : ℝ) * Real.exp (-((max 0 (0 - p.1) : ℚ) : ℝ) /
              ((sPanic.bandwidth_window : ℝ) / 10 ^ 9)))).sum) /
          ((sPanic.bandwidth_history.map (fun p =>
            Real.exp (-((max 0 (0 - p.1) : ℚ) : ℝ) /
              ((sPanic.bandwidth_window : ℝ) / 10 ^ 9)))).sum))))
        (((sPanic.bandwidth_history.map Prod.snd).insertionSort (· ≤ ·)).getD
          (min (Int.toNat ⌊(sPanic.bandwidth_history.length : ℚ) * (2 / 10)⌋)
            (sPanic.bandwidth_history.length - 1)) 0) :=
  ⟨by decide, by decide,
    estimate_bandwidth_min_of_three sPanic 0 (by decide) (by decide)⟩

/-- Witness for C4 on the freshly constructed demo streamer. -/
theorem estimate_bandwidth_fallback_witness :
    (new create_test_quality_levels).bandwidth_history.length <
      (new create_test_quality_levels).min_bandwidth_samples ∧
    (new create_test_quality_levels).current_quality <
      (new create_test_quality_levels).quality_levels.length ∧
    estimate_bandwidth (new create_test_quality_levels) 0 =
      ((new create_test_quality_levels).quality_levels.get
        ⟨(new create_test_quality_levels).current_quality, by decide⟩).bitrate / 8 :=
  ⟨by decide, by decide,
    estimate_bandwidth_fallback (new create_test_quality_levels) 0
      (by decide) (by decide)⟩

/-- Witness for C5 on the demo ladder at 10^6 bytes/sec. -/
theorem find_suitable_quality_highest_witness :
    (new create_test_quality_levels).safety_factor = 4 / 5 ∧
    (((∃ j, j < (new create_test_quality_levels).quality_levels.length ∧
        ((new create_test_quality_levels).quality_levels.getD j default).bitrate / 8 ≤
          toU32 ((1000000 : ℕ) * (4 / 5 : ℚ))) →
      find_suitable_quality (new create_test_quality_levels) 1000000 <
        (new create_test_quality_levels).quality_levels.length ∧
      ((new create_test_quality_levels).quality_levels.getD
          (find_suitable_quality (new create_test_quality_levels) 1000000)
          default).bitrate / 8 ≤ toU32 ((1000000 : ℕ) * (4 / 5 : ℚ)) ∧
      ∀ j, j < (new create_test_quality_levels).quality_levels.length →
        ((new create_test_quality_levels).quality_levels.getD j default).bitrate / 8 ≤
          toU32 ((1000000 : ℕ) * (4 / 5 : ℚ)) →
        j ≤ find_suitable_quality (new create_test_quality_levels) 1000000) ∧
    ((∀ j, j < (new create_test_quality_levels).quality_levels.length →
        ¬ (((new create_test_quality_levels).quality_levels.getD j default).bitrate / 8 ≤
          toU32 ((1000000 : ℕ) * (4 / 5 : ℚ)))) →
      find_suitable_quality (new create_test_quality_levels) 1000000 = 0)) :=
  ⟨rfl, find_suitable_quality_highest (new create_test_quality_levels) 1000000 rfl⟩

/-- Witness for C6 on the freshly constructed demo streamer. -/
theorem buffer_factor_piecewise_witness :
    (new create_test_quality_levels).buffer_panic_threshold ≤
      (new create_test_quality_levels).buffer_state.target_level ∧
    (new create_test_quality_levels).buffer_state.target_level ≤
      (new create_test_quality_levels).buffer_seek_threshold ∧
    (((new create_test_quality_levels).buffer_state.current_level <
        (new create_test_quality_levels).buffer_panic_threshold →
      calculate_buffer_factor (new create_test_quality_levels) = 3 / 10) ∧
    ((new create_test_quality_levels).buffer_panic_threshold ≤
        (new create_test_quality_levels).buffer_state.current_level ∧
      (new create_test_quality_levels).buffer_state.current_level <
        (new create_test_quality_levels).buffer_state.target_level →
      calculate_buffer_factor (new create_test_quality_levels) = 3 / 5 + 3 / 10 *
        (((new create_test_quality_levels).buffer_state.current_level : ℚ) /
          ((new create_test_quality_levels).buffer_state.target_level : ℚ))) ∧
    ((new create_test_quality_levels).buffer_seek_threshold <
        (new create_test_quality_levels).buffer_state.current_level →
      calculate_buffer_factor (new create_test_quality_levels) = 3 / 2) ∧
    ((new create_test_quality_levels).buffer_state.target_level ≤
        (new create_test_quality_levels).buffer_state.current_level ∧
      (new create_test_quality_levels).buffer_state.current_level ≤
        (new create_test_quality_levels).buffer_seek_threshold →
      calculate_buffer_factor (new create_test_quality_levels) = 1)) :=
  ⟨by decide, by decide,
    buffer_factor_piecewise (new create_test_quality_levels)
      (by decide) (by decide)⟩

/-- A steady state for the C7 witness: the demo streamer with ten seconds
of buffered content, comfortably above the panic threshold. -/
def sSteady : AdaptiveBitrateStreamer :=
  { new create_test_quality_levels with
      buffer_state :=
        { (new create_test_quality_levels).buffer_state with
            current_level := 10 * 10 ^ 9 } }

/-- Witness for C7 on a steady (non-panic) state. -/
theorem quality_step_bounded_witness :
    sSteady.current_quality < sSteady.quality_levels.length ∧
    ¬ (sSteady.buffer_state.current_level < sSteady.buffer_panic_threshold ∧
      find_suitable_quality sSteady (effective_bandwidth sSteady 0) <
        sSteady.current_quality) ∧
    ((get_next_quality sSteady 0).2 ≤ sSteady.current_quality + 1 ∧
      sSteady.current_quality ≤ (get_next_quality sSteady 0).2 + 1) :=
  ⟨by decide, fun h => absurd h.1 (by decide),
    quality_step_bounded sSteady 0 (by decide) (fun h => absurd h.1 (by decide))⟩

end ABR
